import Mathlib

/-!
# Verification of the wmr development-server middleware (`src/wmr-middleware.js`)

Shallow embedding of the request-time transform pipeline and its
cache/invalidation protocol:

* the in-memory `WRITE_CACHE` (a `Map<string, string>`),
* the chokidar change handler (`watcher.on('change', ...)`) with its
  debounced batch flush (`flushChanges`),
* the referer-based TypeScript extension-resolution heuristic,
* the transform dispatch (`/_wmr.js` / `.css.js` / module / stylesheet /
  generic),
* the pipelines `TRANSFORMS.js`, `TRANSFORMS.cssModule`, `TRANSFORMS.css`,
* the import-specifier `resolveId` callback used by `transformImports`,
* `writeCacheFile` (memory first, un-awaited disk mirror),
* the request handler's result/error translation (`try`/`catch` body).

External collaborators (the sucrase/htm plugin container `NonRollup`,
`transformImports`' scanner, `modularizeCss`, the filesystem, node's
`path` library) are modelled as explicit function parameters
("environments"); the control flow, cache discipline and string tests of
the middleware itself are translated directly from the source.

JavaScript strings are modelled as `String`; the anchored regular
expression tests of the source (`/\.module\.css$/`, `/\.css\.js$/`,
`/^\.?\.?\//` …) are modelled by suffix/leading-part tests on the
character list, which agree with the regexes (see each definition's
comment).
-/

namespace Wmr

/-! ## String helpers (models of the anchored regex tests) -/

/-- Test whether `s` ends with the literal string `t`.
Model of an end-anchored literal regex test such as `/\.module\.css$/`. -/
def strEndsWith (s t : String) : Bool :=
  t.data.isSuffixOf s.data

/-- Test whether `s` starts with the literal string `t`.
Model of a start-anchored literal regex test. -/
def strBegins (s t : String) : Bool :=
  t.data.isPrefixOf s.data

/-- Model of the regex `/^\.?\.?\//` (an optional dot, an optional dot,
then a slash, at the start): the string starts with `/`, `./` or `../`.
These three leading parts are exactly the strings the regex can match. -/
def isPathLike (s : String) : Bool :=
  strBegins s "/" || strBegins s "./" || strBegins s "../"

/-- A JS "word" character (`\w` in a regex): letter, digit or underscore. -/
def isWordChar (c : Char) : Bool :=
  c.isAlpha || c.isDigit || c = '_'

/-- Model of the regex test `/\.\w{2,}$/` ("has a multi-character
extension"): the maximal run of word characters at the end of the string
has length at least 2 and is immediately preceded by a dot.  (A regex
match `\.\w{2,}$` must consume a suffix of the trailing word-run and the
dot before it, so a match exists exactly under this condition.) -/
def hasMultiCharExt (s : String) : Bool :=
  let run := s.data.reverse.takeWhile isWordChar
  decide (2 ≤ run.length) && ((s.data.reverse.drop run.length).head? = some '.')

/-- Model of `/\.([tj]sx?)$/.test(req.headers.referer || '')`: the referer
ends in `.ts`, `.tsx`, `.js` or `.jsx` (a missing referer is `""`, which
matches none of these). -/
def refererIsTyped (r : String) : Bool :=
  strEndsWith r ".tsx" || strEndsWith r ".ts" || strEndsWith r ".jsx" || strEndsWith r ".js"

/-- Model of `/\.([mc]js|[tj]sx?)$/.test(file)`: recognized module
extensions. -/
def hasModuleExt (f : String) : Bool :=
  strEndsWith f ".mjs" || strEndsWith f ".cjs" ||
  strEndsWith f ".tsx" || strEndsWith f ".ts" ||
  strEndsWith f ".jsx" || strEndsWith f ".js"

/-- Model of `/\.(css|s[ac]ss)$/.test(file)`: recognized stylesheet
extensions. -/
def hasStylesheetExt (f : String) : Bool :=
  strEndsWith f ".css" || strEndsWith f ".scss" || strEndsWith f ".sass"

/-- Model of `s.replace(/^\.\//, '')`: strip one leading `./` if present. -/
def stripDotSlash (s : String) : String :=
  if strBegins s "./" then ⟨s.data.drop 2⟩ else s

/-- Model of `filename.split(sep).join(posix.sep)`: replace every
platform path separator by `/`.  On a POSIX host (`sep = '/'`) this is
the identity; on Windows (`sep = '\\'`) it replaces each backslash. -/
def sepToPosix (s : String) : String :=
  ⟨s.data.map fun c => if c = '\\' then '/' else c⟩

/-! ## The Cache Store (`WRITE_CACHE : Map<string, string>`) -/

/-- The in-memory write cache, keyed by module id.  Modelled as a total
function into `Option`: `none` means the key is absent. -/
def Cache : Type := String → Option String

/-- Lookup: `WRITE_CACHE.get(k)` / `WRITE_CACHE.has(k)` (presence is
`isSome`). -/
def Cache.get (c : Cache) (k : String) : Option String := c k

/-- Insertion: `WRITE_CACHE.set(k, v)`. -/
def Cache.set (c : Cache) (k v : String) : Cache :=
  fun x => if x = k then some v else c x

/-- Deletion: `WRITE_CACHE.delete(k)`. -/
def Cache.del (c : Cache) (k : String) : Cache :=
  fun x => if x = k then none else c x

/-- The empty cache (fresh `Map`). -/
def Cache.empty : Cache := fun _ => none

/-! ## The Change Watcher (`watcher.on('change')`, `flushChanges`) -/

/-- The debounce delay of `setTimeout(flushChanges, 60)`. -/
def FLUSH_DEBOUNCE_MS : Nat := 60

/-- State owned by the watcher: the shared `WRITE_CACHE`, the
`pendingChanges` set (a JS `Set` iterates in insertion order, so it is
modelled as a duplicate-free list in insertion order), the armed
`setTimeout` (with its delay), and a counter of how many timeouts have
been scheduled (each `setTimeout(flushChanges, 60)` call adds one). -/
structure WmrState where
  cache : Cache
  pending : List String
  timer : Option Nat
  schedules : Nat

/-- Initial state: a given cache, no pending changes, no timer armed. -/
def initialWmr (c : Cache) : WmrState :=
  { cache := c, pending := [], timer := none, schedules := 0 }

/-- The `watcher.on('change', filename => ...)` callback
(src/wmr-middleware.js lines 72–81), for one change event:

* `filename = filename.split(sep).join(posix.sep)`;
* `if (!pendingChanges.size) setTimeout(flushChanges, 60)`;
* `pendingChanges.add('/' + filename)`;
* `WRITE_CACHE.delete(filename)`;
* `if (/\.module\.css$/.test(filename)) WRITE_CACHE.delete(filename + '.js')`.

(The call `NonRollup.watchChange(resolve(cwd, filename))` notifies the
external plugin container and touches none of this state; it is an
external effect and is not part of the state modelled here.) -/
def watcherOnChange (s : WmrState) (filename : String) : WmrState :=
  let fn := sepToPosix filename
  let web := "/" ++ fn
  let scheduling := s.pending.isEmpty
  { cache :=
      if strEndsWith fn ".module.css" then
        Cache.del (Cache.del s.cache fn) (fn ++ ".js")
      else
        Cache.del s.cache fn,
    pending := if web ∈ s.pending then s.pending else s.pending ++ [web],
    timer := if scheduling then some FLUSH_DEBOUNCE_MS else s.timer,
    schedules := s.schedules + (if scheduling then 1 else 0) }

/-- Model of `flushChanges` (lines 68–71): emit `Array.from(pendingChanges)`
to the `onChange` sink and clear the set; the armed timeout has fired. -/
def flushChanges (s : WmrState) : List String × WmrState :=
  (s.pending, { s with pending := [], timer := none })

/-- A sequence of change events, in arrival order. -/
def processChanges (s : WmrState) (fs : List String) : WmrState :=
  fs.foldl watcherOnChange s

/-! ## The TypeScript extension-resolution heuristic (lines 102–111) -/

/-- The referer extension heuristic of the middleware body:

```js
if (/\.([tj]sx?)$/.test(req.headers.referer || '') && !/\.\w{2,}$/.test(path)) {
  const isCached = file => WRITE_CACHE.has(posix.relative(cwd, file).replace(/^\.\//, ''));
  const isFile = file => fs.stat(file).then(s => s.isFile()).catch(() => false);
  if (isCached(file + '.tsx')) file += '.tsx';
  else if (isCached(file + '.ts')) file += '.ts';
  else if (await isFile(file + '.tsx')) file += '.tsx';
  else if (await isFile(file + '.ts')) file += '.ts';
}
```

`isFile` (an `fs.stat` probe, `false` on error) and
`posix.relative(cwd, ·)` (node's path library, with `cwd` fixed) are
external and passed as parameters. -/
def resolveFileExt (cache : Cache) (isFile : String → Bool)
    (posixRel : String → String) (referer path file : String) : String :=
  if refererIsTyped referer && !hasMultiCharExt path then
    let isCached := fun f => (Cache.get cache (stripDotSlash (posixRel f))).isSome
    if isCached (file ++ ".tsx") then file ++ ".tsx"
    else if isCached (file ++ ".ts") then file ++ ".ts"
    else if isFile (file ++ ".tsx") then file ++ ".tsx"
    else if isFile (file ++ ".ts") then file ++ ".ts"
    else file
  else file

/-! ## Transform selection (lines 121–132) -/

/-- The five pipelines, named as in the spec; the source binds
`getWmrClient` (runtimeClient), `TRANSFORMS.cssModule` (cssModuleProxy),
`TRANSFORMS.js` (module), `TRANSFORMS.css` (stylesheet) and
`TRANSFORMS.generic` (passthrough). -/
inductive PipelineKind where
  | runtimeClient : PipelineKind
  | cssModuleProxy : PipelineKind
  | module : PipelineKind
  | stylesheet : PipelineKind
  | passthrough : PipelineKind
deriving DecidableEq

/-- The transform dispatch chain of the middleware body:

```js
if (path === '/_wmr.js') transform = getWmrClient.bind(null);
else if (/\.css\.js$/.test(file)) transform = TRANSFORMS.cssModule;
else if (/\.([mc]js|[tj]sx?)$/.test(file)) transform = TRANSFORMS.js;
else if (/\.(css|s[ac]ss)$/.test(file)) transform = TRANSFORMS.css;
else transform = TRANSFORMS.generic;
``` -/
def selectTransform (path file : String) : PipelineKind :=
  if path = "/_wmr.js" then .runtimeClient
  else if strEndsWith file ".css.js" then .cssModuleProxy
  else if hasModuleExt file then .module
  else if hasStylesheetExt file then .stylesheet
  else .passthrough

/-! ## The specifier rewriter (`resolveId` callback of `TRANSFORMS.js`,
lines 176–186) -/

/-- The `resolveId(spec, importer)` callback `TRANSFORMS.js` passes to
`transformImports` (the `importer` argument is unused by the source):

```js
if (spec === 'wmr') return '/_wmr.js';
// foo.css --> foo.css.js (import of CSS Modules proxy module)
if (spec.endsWith('.css')) spec += '.js';
if (!/^\.?\.?\//.test(spec)) spec = `/@npm/${spec}`;
return spec;
``` -/
def resolveId (spec : String) : String :=
  if spec = "wmr" then "/_wmr.js"
  else
    let spec1 := if strEndsWith spec ".css" then spec ++ ".js" else spec
    if isPathLike spec1 then spec1 else "/@npm/" ++ spec1

/-- The `resolveId(spec)` callback `TRANSFORMS.cssModule` passes to
`transformImports`: `'wmr'` resolves to `'/_wmr.js'`; any other
specifier only produces a `console.warn` and resolves to `undefined`. -/
def cssModuleResolveId (spec : String) : Option String :=
  if spec = "wmr" then some "/_wmr.js" else none

/-! ## The pipelines (`TRANSFORMS`, lines 161–277) -/

/-- Result of one pipeline run: the served content, the cache afterwards,
and counters for the external work performed during this run
(`fsReads`: direct `fs.readFile` calls; `extCalls`: invocations of the
external transpiler/compiler — `NonRollup.transform` + `transformImports`
for `TRANSFORMS.js`, the request-scoped plugin container for
`TRANSFORMS.cssModule`). -/
structure PipeRun where
  output : String
  cache : Cache
  fsReads : Nat
  extCalls : Nat

/-- External collaborators of `TRANSFORMS.js`: the filesystem read
(`Except.error` = a thrown I/O error), `NonRollup.transform(code, id)`,
and the `transformImports(code, id, {resolveId})` scanner, which receives
the middleware's own `resolveId` callback as its third argument. -/
structure JsEnv where
  readFile : String → Except String String
  nonRollupTransform : String → String → String
  applyImports : String → String → (String → String) → String

/-- Model of `TRANSFORMS.js` (lines 163–192): check `WRITE_CACHE` first and return
the entry on a hit; otherwise read the source file, run the external
transpiler, rewrite import specifiers with `resolveId`, store the result
with `writeCacheFile` (memory effect: `Cache.set`) and return it. -/
def TRANSFORMS_js (env : JsEnv) (cache : Cache) (id file : String) :
    Except String PipeRun :=
  match Cache.get cache id with
  | some v => .ok ⟨v, cache, 0, 0⟩
  | none =>
    match env.readFile file with
    | .error e => .error e
    | .ok code =>
      let code1 := env.nonRollupTransform code id
      let code2 := env.applyImports code1 id resolveId
      .ok ⟨code2, Cache.set cache id code2, 1, 1⟩

/-- External collaborators of `TRANSFORMS.cssModule`: the request-scoped
plugin container's `load` (returning the proxy-module code together with
the assets it emits through the container's `writeFile` callback — each
of which the source routes into `writeCacheFile`), its `transform`, and
the `transformImports` scanner (which here receives
`cssModuleResolveId`). -/
structure CssModuleEnv where
  load : String → Except String (String × List (String × String))
  containerTransform : String → String → String
  applyImports : String → String → (String → Option String) → String

/-- Model of `file.replace(/\.js$/, '')`. -/
def stripJsExt (f : String) : String :=
  if strEndsWith f ".js" then ⟨f.data.take (f.data.length - 3)⟩ else f

/-- Model of `TRANSFORMS.cssModule` (lines 195–237): check `WRITE_CACHE` first and
return the entry on a hit; otherwise strip the `.js` suffix to find the
stylesheet, load it through a fresh plugin container (whose `writeFile`
callback stores each emitted asset via `writeCacheFile`), transform,
rewrite specifiers, store the proxy module under `id` and return it. -/
def TRANSFORMS_cssModule (env : CssModuleEnv) (cache : Cache) (id file : String) :
    Except String PipeRun :=
  match Cache.get cache id with
  | some v => .ok ⟨v, cache, 0, 0⟩
  | none =>
    match env.load (stripJsExt file) with
    | .error e => .error e
    | .ok (code, assets) =>
      let cache1 := assets.foldl (fun c kv => Cache.set c kv.1 kv.2) cache
      let code1 := env.containerTransform code id
      let code2 := env.applyImports code1 id cssModuleResolveId
      .ok ⟨code2, Cache.set cache1 id code2, 0, 1⟩

/-- External collaborators of `TRANSFORMS.css`: the filesystem read and
`modularizeCss(code, id)` from the styles plugin. -/
structure CssEnv where
  readFile : String → Except String String
  modularizeCss : String → String → String

/-- Model of `TRANSFORMS.css` (lines 240–261).  A thrown value is modelled by
`Except.error`: `Except.error none` is `throw null` (the skip signal),
`Except.error (some e)` a real error `e` (e.g. a failed `fs.readFile`):

```js
if (!/\.module\.css$/.test(path)) throw null;
if (WRITE_CACHE.has(id)) return WRITE_CACHE.get(id);
let code = await fs.readFile(resolve(cwd, file), 'utf-8');
code = modularizeCss(code, id);
writeCacheFile(out, id, code);
return code;
``` -/
def TRANSFORMS_css (env : CssEnv) (cache : Cache) (id path file : String) :
    Except (Option String) (String × Cache) :=
  if !strEndsWith path ".module.css" then .error none
  else
    match Cache.get cache id with
    | some v => .ok (v, cache)
    | none =>
      match env.readFile file with
      | .error e => .error (some e)
      | .ok code =>
        let code1 := env.modularizeCss code id
        .ok (code1, Cache.set cache id code1)

/-! ## The request handler's result/error translation (lines 134–157) -/

/-- Outcome of `await transform(ctx)` as seen by the handler's
`try`/`catch`: a returned value, a returned `false`, a returned
null/undefined, a thrown `null`, or a thrown real error. -/
inductive TOutcome where
  | value : String → TOutcome
  | notHandled : TOutcome
  | nullish : TOutcome
  | thrownNull : TOutcome
  | thrownErr : String → TOutcome
deriving DecidableEq

/-- What the handler does with the outcome: write the 200 response and
body, call `next()`, call `onError(e); next(e)`, or do nothing. -/
inductive HandlerAction where
  | respond : String → HandlerAction
  | callNext : HandlerAction
  | reportAndNext : String → HandlerAction
  | noResponse : HandlerAction
deriving DecidableEq

/-- The `try`/`catch` body of the request handler:

```js
const result = await transform(ctx);
if (result === false) return next();          // skip sentinel
if (result != null) { res.writeHead(200, …); res.end(result); }
// (a nullish result writes nothing and calls nothing)
} catch (e) {
  if (e == null) return next();               // `throw null` also skips
  onError(e);
  next(e);
}
``` -/
def handleOutcome : TOutcome → HandlerAction
  | .value s => .respond s
  | .notHandled => .callNext
  | .nullish => .noResponse
  | .thrownNull => .callNext
  | .thrownErr e => .reportAndNext e

/-- View of a `TRANSFORMS.css` run as a handler outcome (`throw null`
vs. real error vs. returned value). -/
def cssOutcome : Except (Option String) (String × Cache) → TOutcome
  | .ok (s, _) => .value s
  | .error none => .thrownNull
  | .error (some e) => .thrownErr e

/-! ## `writeCacheFile` (lines 285–292) -/

/-- Model of `resolve(rootDir, fileName)` for a cache file name relative
to the output directory. -/
def pathResolve (rootDir fileName : String) : String :=
  rootDir ++ "/" ++ fileName

/-- Model of node's `dirname`: everything before the last `/` (`"."`
when there is no slash).  Only its comparison against `rootDir` matters
here (it decides whether a `mkdir` is issued). -/
def dirnameOf (p : String) : String :=
  match p.data.reverse.dropWhile (fun c => c ≠ '/') with
  | [] => "."
  | _ :: t => ⟨t.reverse⟩

/-- One step of `writeCacheFile`: the synchronous in-memory
`WRITE_CACHE.set`, the awaited `fs.mkdir(..., { recursive: true })`, or
the awaited `fs.writeFile`. -/
inductive CacheStep where
  | memSet : String → String → CacheStep
  | ensureDir : String → CacheStep
  | diskWrite : String → String → CacheStep
deriving DecidableEq

/-- The steps of `writeCacheFile(rootDir, fileName, data)`, in program
order:

```js
WRITE_CACHE.set(fileName, data);
const filePath = resolve(rootDir, fileName);
if (dirname(filePath) !== rootDir) await fs.mkdir(dirname(filePath), { recursive: true });
await fs.writeFile(filePath, data);
```

The caller in the pipelines does not await this promise, so everything
after the first (synchronous) step runs in the background. -/
def writeCacheFileSteps (rootDir fileName data : String) : List CacheStep :=
  let filePath := pathResolve rootDir fileName
  CacheStep.memSet fileName data ::
    ((if dirnameOf filePath ≠ rootDir then [CacheStep.ensureDir (dirnameOf filePath)] else []) ++
      [CacheStep.diskWrite filePath data])

/-- Memory plus disk, for running `writeCacheFile`'s steps. -/
structure SysState where
  cache : Cache
  disk : String → Option String

/-- Effect of one `writeCacheFile` step.  `fsOk` models whether the disk
mirror write succeeds; a failed write changes nothing (the rejection of
the un-awaited promise is observed by nobody). -/
def applyCacheStep (fsOk : Bool) (st : SysState) : CacheStep → SysState
  | .memSet k v => { st with cache := Cache.set st.cache k v }
  | .ensureDir _ => st
  | .diskWrite p v =>
      if fsOk then { st with disk := fun x => if x = p then some v else st.disk x } else st

/-! ## The spec-side scoped-stylesheet convention (for the refinement
comparison of claim C5) -/

/-- Modelled from the spec: "only serves paths recognized as *scoped*
stylesheets (naming convention: a `.module.` infix before the
extension)" — a `.module.` infix immediately before the path's
stylesheet extension (`.css`, `.scss` or `.sass`, the extensions §4.1
recognizes as "plain or preprocessed" stylesheets).  This is the spec's
wording; the source tests `/\.module\.css$/` instead, and the two are
compared in claim C5. -/
def specScopedStylesheet (path : String) : Bool :=
  strEndsWith path ".module.css" || strEndsWith path ".module.scss" ||
  strEndsWith path ".module.sass"

/-! ## Concrete fixtures used by the witnesses -/

/-- Concrete cache/watcher state for the C1 witness: both the stylesheet
entry and its proxy-module entry are present before the change event. -/
def wmrS0 : WmrState :=
  initialWmr (Cache.set (Cache.set Cache.empty "a.module.css" "C") "a.module.css.js" "P")

/-- Concrete cache/watcher state for the C10 witness. -/
def wmrS1 : WmrState :=
  initialWmr (Cache.set (Cache.set Cache.empty "a.js" "A") "b.js" "B")

/-- Trivial `TRANSFORMS.js` environment for the C2 witness. -/
def jsEnvW : JsEnv :=
  ⟨fun _ => .ok "src", fun c _ => c, fun c _ _ => c⟩

/-- Trivial `TRANSFORMS.cssModule` environment for the C2 witness. -/
def cssModEnvW : CssModuleEnv :=
  ⟨fun _ => .ok ("px", [("a.module.css", "css")]), fun c _ => c, fun c _ _ => c⟩

/-- Disk probe for the C4 witness: both `app.tsx` and `app.ts` exist. -/
def isFileW : String → Bool := fun f => f == "app.tsx" || f == "app.ts"

/-- Path-relativization for the C4 witness (identity: `file` is already
cwd-relative in the witness scenario). -/
def posixRelW : String → String := fun f => f

/-- Stylesheet environment for the C5 witness. -/
def cssEnvW : CssEnv := ⟨fun _ => .ok "body{}", fun c _ => c⟩

/-! ## Basic lemmas about the cache and strings -/

theorem Cache.get_set_self (c : Cache) (k v : String) :
    Cache.get (Cache.set c k v) k = some v := by
  simp [Cache.get, Cache.set]

theorem self_ne_append_js (s : String) : s ≠ s ++ ".js" := by
  intro h
  have h2 := congrArg String.length h
  have h3 : (".js" : String).length = 3 := rfl
  rw [String.length_append, h3] at h2
  omega

/-! ## Claim C1 -/

/-- C1: for every source path for which the watcher observes a change
event, the cache entry keyed by that path's module id (the
separator-normalized, cwd-relative watcher filename) is absent on the
very next cache lookup; and if the changed path is a scoped stylesheet
(name ending in `.module.css`), the entry for its proxy-module id (the
stylesheet id with `.js` appended) is also absent. -/
theorem watcher_change_invalidates (s : WmrState) (f : String) :
    Cache.get (watcherOnChange s f).cache (sepToPosix f) = none ∧
    (strEndsWith (sepToPosix f) ".module.css" = true →
      Cache.get (watcherOnChange s f).cache (sepToPosix f ++ ".js") = none) := by
  constructor
  · by_cases h : strEndsWith (sepToPosix f) ".module.css" <;>
      simp [watcherOnChange, h, Cache.get, Cache.del, self_ne_append_js (sepToPosix f)]
  · intro h
    simp [watcherOnChange, h, Cache.get, Cache.del]

theorem watcher_change_invalidates_witness :
    Cache.get (watcherOnChange wmrS0 "a.module.css").cache (sepToPosix "a.module.css") = none ∧
    Cache.get (watcherOnChange wmrS0 "a.module.css").cache (sepToPosix "a.module.css" ++ ".js") = none :=
  ⟨(watcher_change_invalidates wmrS0 "a.module.css").1,
   (watcher_change_invalidates wmrS0 "a.module.css").2 (by decide)⟩

/-! ## Claim C10 -/

/-- C10 (frame property of invalidation): a watcher change event for a
file whose (normalized) name does not end in `.module.css` deletes at
most the single cache entry keyed by that file's own id; every other key
maps to the same content after the event as before. -/
theorem watcher_change_frame (s : WmrState) (f : String)
    (h : strEndsWith (sepToPosix f) ".module.css" = false) :
    Cache.get (watcherOnChange s f).cache (sepToPosix f) = none ∧
    (∀ k, k ≠ sepToPosix f →
      Cache.get (watcherOnChange s f).cache k = Cache.get s.cache k) := by
  constructor
  · simp [watcherOnChange, h, Cache.get, Cache.del]
  · intro k hk
    simp [watcherOnChange, h, Cache.get, Cache.del, hk]

theorem watcher_change_frame_witness :
    Cache.get (watcherOnChange wmrS1 "a.js").cache (sepToPosix "a.js") = none ∧
    Cache.get (watcherOnChange wmrS1 "a.js").cache "b.js" = Cache.get wmrS1.cache "b.js" :=
  ⟨(watcher_change_frame wmrS1 "a.js" (by decide)).1,
   (watcher_change_frame wmrS1 "a.js" (by decide)).2 "b.js" (by decide)⟩

/-! ## Claim C9: lemmas about the debounced batch -/

theorem watcher_pending_ne_nil (s : WmrState) (f : String) :
    (watcherOnChange s f).pending ≠ [] := by
  by_cases h : ("/" ++ sepToPosix f) ∈ s.pending
  · simp only [watcherOnChange, if_pos h]
    exact List.ne_nil_of_mem h
  · simp [watcherOnChange, h]

theorem watcher_pending_mem (s : WmrState) (f : String) :
    ("/" ++ sepToPosix f) ∈ (watcherOnChange s f).pending := by
  by_cases h : ("/" ++ sepToPosix f) ∈ s.pending <;> simp [watcherOnChange, h]

theorem watcher_pending_mono (s : WmrState) (f x : String) (hx : x ∈ s.pending) :
    x ∈ (watcherOnChange s f).pending := by
  by_cases h : ("/" ++ sepToPosix f) ∈ s.pending <;> simp [watcherOnChange, h, hx]

theorem watcher_pending_nodup (s : WmrState) (f : String) (hs : s.pending.Nodup) :
    (watcherOnChange s f).pending.Nodup := by
  by_cases h : ("/" ++ sepToPosix f) ∈ s.pending
  · simpa [watcherOnChange, h] using hs
  · simp [watcherOnChange, h, List.nodup_append, hs]

theorem watcher_steady_of_ne_nil (s : WmrState) (f : String) (h : s.pending ≠ []) :
    (watcherOnChange s f).schedules = s.schedules ∧
    (watcherOnChange s f).timer = s.timer := by
  cases hp : s.pending with
  | nil => exact absurd hp h
  | cons a t => constructor <;> simp [watcherOnChange, hp]

theorem watcher_first_schedule (s : WmrState) (f : String) (h : s.pending = []) :
    (watcherOnChange s f).schedules = s.schedules + 1 ∧
    (watcherOnChange s f).timer = some FLUSH_DEBOUNCE_MS ∧
    (watcherOnChange s f).pending = ["/" ++ sepToPosix f] := by
  refine ⟨?_, ?_, ?_⟩ <;> simp [watcherOnChange, h]

theorem processChanges_cons (s : WmrState) (f : String) (fs : List String) :
    processChanges s (f :: fs) = processChanges (watcherOnChange s f) fs := rfl

theorem processChanges_steady (fs : List String) : ∀ s : WmrState, s.pending ≠ [] →
    (processChanges s fs).pending ≠ [] ∧
    (processChanges s fs).schedules = s.schedules ∧
    (processChanges s fs).timer = s.timer := by
  induction fs with
  | nil => exact fun s h => ⟨h, rfl, rfl⟩
  | cons f fs ih =>
    intro s h
    rw [processChanges_cons]
    obtain ⟨a, b, c⟩ := ih (watcherOnChange s f) (watcher_pending_ne_nil s f)
    obtain ⟨d, e⟩ := watcher_steady_of_ne_nil s f h
    exact ⟨a, by rw [b, d], by rw [c, e]⟩

theorem processChanges_mem_mono (fs : List String) : ∀ (s : WmrState) (x : String),
    x ∈ s.pending → x ∈ (processChanges s fs).pending := by
  induction fs with
  | nil => exact fun _ _ hx => hx
  | cons f fs ih =>
    intro s x hx
    rw [processChanges_cons]
    exact ih _ _ (watcher_pending_mono s f x hx)

theorem processChanges_mem (fs : List String) : ∀ (s : WmrState) (f : String), f ∈ fs →
    ("/" ++ sepToPosix f) ∈ (processChanges s fs).pending := by
  induction fs with
  | nil => intro s f h; cases h
  | cons g fs ih =>
    intro s f h
    rw [processChanges_cons]
    rcases List.mem_cons.mp h with h | h
    · subst h
      exact processChanges_mem_mono fs _ _ (watcher_pending_mem s f)
    · exact ih _ _ h

theorem processChanges_nodup (fs : List String) : ∀ s : WmrState,
    s.pending.Nodup → (processChanges s fs).pending.Nodup := by
  induction fs with
  | nil => exact fun _ h => h
  | cons f fs ih =>
    intro s h
    rw [processChanges_cons]
    exact ih _ (watcher_pending_nodup s f h)

/-- C9: the Change Watcher emits exactly one aggregated notification per
debounce window.  Starting from an idle state (empty pending set, no
timer), any nonempty sequence of change events schedules exactly one
flush (one `setTimeout(flushChanges, 60)` call, armed with the fixed
60 ms delay); every change arriving before the flush joins the same
pending batch, so the flushed notification contains the web-relative
path of every accumulated change, contains no duplicates (no change is
reported twice), and the pending set is cleared by the flush. -/
theorem debounce_single_flush (c : Cache) (fs : List String) (hfs : fs ≠ []) :
    (processChanges (initialWmr c) fs).schedules = 1 ∧
    (processChanges (initialWmr c) fs).timer = some FLUSH_DEBOUNCE_MS ∧
    (∀ f ∈ fs, ("/" ++ sepToPosix f) ∈ (flushChanges (processChanges (initialWmr c) fs)).1) ∧
    (flushChanges (processChanges (initialWmr c) fs)).1.Nodup ∧
    (flushChanges (processChanges (initialWmr c) fs)).2.pending = [] := by
  obtain ⟨f, fs', rfl⟩ := List.exists_cons_of_ne_nil hfs
  have hinit : (initialWmr c).pending = [] := rfl
  obtain ⟨h1, h2, h3⟩ := watcher_first_schedule (initialWmr c) f hinit
  obtain ⟨hne, hsch, htmr⟩ :=
    processChanges_steady fs' (watcherOnChange (initialWmr c) f) (watcher_pending_ne_nil _ _)
  refine ⟨?_, ?_, ?_, ?_, rfl⟩
  · rw [processChanges_cons, hsch, h1]; rfl
  · rw [processChanges_cons, htmr, h2]
  · intro g hg
    exact processChanges_mem _ _ _ hg
  · exact processChanges_nodup _ _ (by simp [initialWmr])

theorem debounce_single_flush_witness :
    (processChanges (initialWmr Cache.empty) ["a.js", "b.module.css"]).schedules = 1 ∧
    ("/a.js") ∈ (flushChanges (processChanges (initialWmr Cache.empty) ["a.js", "b.module.css"])).1 ∧
    (flushChanges (processChanges (initialWmr Cache.empty) ["a.js", "b.module.css"])).2.pending = [] := by
  have h := debounce_single_flush Cache.empty ["a.js", "b.module.css"] (by decide)
  exact ⟨h.1, by simpa using h.2.2.1 "a.js" (by decide), h.2.2.2.2⟩

/-! ## Claim C2 -/

/-- C2: cache-hit determinism of the `TRANSFORMS.js` and
`TRANSFORMS.cssModule` pipelines.  Whenever a run succeeds, the produced
content is stored in the cache under the module id, and a second run
with that cache (i.e. with the entry present and not invalidated in
between) returns byte-identical content, leaves the cache unchanged, and
performs zero source-file reads and zero invocations of the external
transpiler/compiler — the cache check precedes every external
invocation, and every computed result is stored in the cache. -/
theorem pipeline_cache_hit_determinism :
    (∀ (env : JsEnv) (cache : Cache) (id file : String) (r : PipeRun),
      TRANSFORMS_js env cache id file = .ok r →
      Cache.get r.cache id = some r.output ∧
      TRANSFORMS_js env r.cache id file = .ok ⟨r.output, r.cache, 0, 0⟩) ∧
    (∀ (env : CssModuleEnv) (cache : Cache) (id file : String) (r : PipeRun),
      TRANSFORMS_cssModule env cache id file = .ok r →
      Cache.get r.cache id = some r.output ∧
      TRANSFORMS_cssModule env r.cache id file = .ok ⟨r.output, r.cache, 0, 0⟩) := by
  constructor
  · intro env cache id file r h
    unfold TRANSFORMS_js at h ⊢
    cases h1 : Cache.get cache id with
    | some v =>
      rw [h1] at h
      cases h
      simp [h1]
    | none =>
      rw [h1] at h
      cases h2 : env.readFile file with
      | error e => rw [h2] at h; cases h
      | ok code =>
        rw [h2] at h
        cases h
        simp [Cache.get_set_self]
  · intro env cache id file r h
    unfold TRANSFORMS_cssModule at h ⊢
    cases h1 : Cache.get cache id with
    | some v =>
      rw [h1] at h
      cases h
      simp [h1]
    | none =>
      rw [h1] at h
      cases h2 : env.load (stripJsExt file) with
      | error e => rw [h2] at h; cases h
      | ok ca =>
        rw [h2] at h
        cases h
        simp [Cache.get_set_self]

theorem pipeline_cache_hit_determinism_witness :
    (Cache.get (Cache.set Cache.empty "a.js" "src") "a.js" = some "src" ∧
      TRANSFORMS_js jsEnvW (Cache.set Cache.empty "a.js" "src") "a.js" "a.js" =
        Except.ok ⟨"src", Cache.set Cache.empty "a.js" "src", 0, 0⟩) ∧
    (Cache.get (Cache.set (Cache.set Cache.empty "a.module.css" "css") "a.module.css.js" "px")
        "a.module.css.js" = some "px" ∧
      TRANSFORMS_cssModule cssModEnvW
        (Cache.set (Cache.set Cache.empty "a.module.css" "css") "a.module.css.js" "px")
        "a.module.css.js" "a.module.css.js" =
        Except.ok ⟨"px",
          Cache.set (Cache.set Cache.empty "a.module.css" "css") "a.module.css.js" "px", 0, 0⟩) :=
  ⟨pipeline_cache_hit_determinism.1 jsEnvW Cache.empty "a.js" "a.js"
      ⟨"src", Cache.set Cache.empty "a.js" "src", 1, 1⟩ rfl,
   pipeline_cache_hit_determinism.2 cssModEnvW Cache.empty "a.module.css.js" "a.module.css.js"
      ⟨"px", Cache.set (Cache.set Cache.empty "a.module.css" "css") "a.module.css.js" "px", 0, 1⟩
      rfl⟩

/-! ## Claim C3 -/

/-- C3: specifier rewriting inside a transformed module (the `resolveId`
callback `TRANSFORMS.js` hands to `transformImports`): a bare specifier
`"left-pad"` is rewritten to the package-registry-proxy route
`"/@npm/left-pad"`; a relative specifier `"./util.js"` is returned
unchanged; `"./style.css"` is rewritten to `"./style.css.js"`; and the
specifier `"wmr"` is rewritten to the reserved runtime-client path
`"/_wmr.js"`. -/
theorem resolveId_spec_cases :
    resolveId "left-pad" = "/@npm/left-pad" ∧
    resolveId "./util.js" = "./util.js" ∧
    resolveId "./style.css" = "./style.css.js" ∧
    resolveId "wmr" = "/_wmr.js" := by
  decide

/-! ## Claim C4 -/

/-- C4: for every request whose referer indicates a typed/component-syntax
module (`/\.([tj]sx?)$/`) and whose path lacks a multi-character
extension, the resolved file is determined by trying, in order: a cached
entry for `file + ".tsx"`, a cached entry for `file + ".ts"`, an on-disk
file at `file + ".tsx"`, an on-disk file at `file + ".ts"`; the first
match wins, otherwise the path is used unmodified.  In particular, if
`file + ".tsx"` exists on disk and neither candidate is cached,
`file + ".tsx"` is chosen regardless of whether `file + ".ts"` also
exists. -/
theorem extension_resolution_order (cache : Cache) (isFile : String → Bool)
    (posixRel : String → String) (referer path file : String)
    (href : refererIsTyped referer = true) (hext : hasMultiCharExt path = false) :
    let isCached := fun f => (Cache.get cache (stripDotSlash (posixRel f))).isSome
    (isCached (file ++ ".tsx") = true →
      resolveFileExt cache isFile posixRel referer path file = file ++ ".tsx") ∧
    (isCached (file ++ ".tsx") = false → isCached (file ++ ".ts") = true →
      resolveFileExt cache isFile posixRel referer path file = file ++ ".ts") ∧
    (isCached (file ++ ".tsx") = false → isCached (file ++ ".ts") = false →
      isFile (file ++ ".tsx") = true →
      resolveFileExt cache isFile posixRel referer path file = file ++ ".tsx") ∧
    (isCached (file ++ ".tsx") = false → isCached (file ++ ".ts") = false →
      isFile (file ++ ".tsx") = false → isFile (file ++ ".ts") = true →
      resolveFileExt cache isFile posixRel referer path file = file ++ ".ts") ∧
    (isCached (file ++ ".tsx") = false → isCached (file ++ ".ts") = false →
      isFile (file ++ ".tsx") = false → isFile (file ++ ".ts") = false →
      resolveFileExt cache isFile posixRel referer path file = file) := by
  refine ⟨?_, ?_, ?_, ?_, ?_⟩
  · intro h1
    simp [resolveFileExt, href, hext, h1]
  · intro h1 h2
    simp [resolveFileExt, href, hext, h1, h2]
  · intro h1 h2 h3
    simp [resolveFileExt, href, hext, h1, h2, h3]
  · intro h1 h2 h3 h4
    simp [resolveFileExt, href, hext, h1, h2, h3, h4]
  · intro h1 h2 h3 h4
    simp [resolveFileExt, href, hext, h1, h2, h3, h4]

theorem extension_resolution_order_witness :
    resolveFileExt Cache.empty isFileW posixRelW "index.tsx" "/app" "app" = "app" ++ ".tsx" :=
  (extension_resolution_order Cache.empty isFileW posixRelW "index.tsx" "/app" "app"
      (by decide) (by decide)).2.2.1 (by decide) (by decide) (by decide)

/-! ## Claim C5 -/

/-- C5 counterexample: the claimed "serves iff the path satisfies the
`.module.` naming convention before its stylesheet extension" fails on
the code.  The concrete path `"a.module.scss"` satisfies the spec-worded
convention (`.module.` infix immediately before the stylesheet extension
`.scss`) and is a stylesheet path, yet the `TRANSFORMS.css` pipeline
throws null (skips) for it, because the source tests the narrower
`/\.module\.css$/`. -/
theorem css_pipeline_convention_counterexample :
    specScopedStylesheet "a.module.scss" = true ∧
    hasStylesheetExt "a.module.scss" = true ∧
    TRANSFORMS_css ⟨fun _ => .ok "body{}", fun c _ => c⟩ Cache.empty
      "a.module.scss" "a.module.scss" "a.module.scss" = Except.error none :=
  ⟨by decide, by decide, rfl⟩

/-- C5 (amended): the stylesheet pipeline signals skip (throws null) if
and only if the request path does not end in `.module.css` — the code's
scoped-stylesheet test is the literal suffix `.module.css`, not a
`.module.` infix before an arbitrary stylesheet extension.  When the
pipeline skips, the Request Handler defers to the next handler without
writing a response. -/
theorem css_pipeline_skip_iff (env : CssEnv) (cache : Cache) (id path file : String) :
    (TRANSFORMS_css env cache id path file = Except.error none ↔
      strEndsWith path ".module.css" = false) ∧
    (strEndsWith path ".module.css" = false →
      handleOutcome (cssOutcome (TRANSFORMS_css env cache id path file)) =
        HandlerAction.callNext) := by
  by_cases h : strEndsWith path ".module.css"
  · constructor
    · simp only [TRANSFORMS_css, h, Bool.not_true, Bool.false_eq_true, if_false]
      constructor
      · intro hcontra
        cases h1 : Cache.get cache id with
        | some v => rw [h1] at hcontra; cases hcontra
        | none =>
          rw [h1] at hcontra
          cases h2 : env.readFile file with
          | error e => rw [h2] at hcontra; cases hcontra
          | ok code => rw [h2] at hcontra; cases hcontra
      · intro hfalse
        simp at hfalse
    · intro hfalse
      simp [h] at hfalse
  · have hf : strEndsWith path ".module.css" = false := by
      cases hv : strEndsWith path ".module.css" with
      | false => rfl
      | true => exact absurd hv h
    constructor
    · simp [TRANSFORMS_css, hf]
    · intro _
      simp [TRANSFORMS_css, hf, cssOutcome, handleOutcome]

theorem css_pipeline_skip_iff_witness :
    handleOutcome (cssOutcome (TRANSFORMS_css cssEnvW Cache.empty "a.css" "a.css" "a.css")) =
      HandlerAction.callNext :=
  (css_pipeline_skip_iff cssEnvW Cache.empty "a.css" "a.css" "a.css").2 (by decide)

/-! ## Claim C6 -/

/-- C6: for every error thrown by a pipeline, the Request Handler's
`catch` block silently defers to the next handler when the thrown value
is null/absent; for any other thrown error it reports the raw error to
the error sink and then forwards the same error to the next handler
(`onError(e); next(e)`), and in neither case does it write the response
itself. -/
theorem handler_error_translation :
    handleOutcome TOutcome.thrownNull = HandlerAction.callNext ∧
    (∀ e, handleOutcome (TOutcome.thrownErr e) = HandlerAction.reportAndNext e) ∧
    (∀ e s, handleOutcome (TOutcome.thrownErr e) ≠ HandlerAction.respond s) ∧
    (∀ s, handleOutcome TOutcome.thrownNull ≠ HandlerAction.respond s) := by
  refine ⟨rfl, fun e => rfl, ?_, ?_⟩
  · intro e s
    simp [handleOutcome]
  · intro s
    simp [handleOutcome]

theorem handler_error_translation_witness :
    handleOutcome (TOutcome.thrownErr "SyntaxError") = HandlerAction.reportAndNext "SyntaxError" :=
  handler_error_translation.2.1 "SyntaxError"

/-! ## Claim C7 -/

theorem strEndsWith_js_of_cssjs (f : String) (h : strEndsWith f ".css.js" = true) :
    strEndsWith f ".js" = true := by
  simp only [strEndsWith, List.isSuffixOf_iff_suffix] at h ⊢
  exact List.IsSuffix.trans ⟨(".css" : String).data, rfl⟩ h

/-- C7: transform selection follows the stated priority order — the
exact path `"/_wmr.js"` selects the runtime client; otherwise a file
ending in `.css.js` selects the CSS-module proxy pipeline (and such a
file also carries a recognized module extension, so the priority is what
keeps it out of the module pipeline); otherwise a recognized module
extension selects the module pipeline; otherwise a recognized stylesheet
extension selects the stylesheet pipeline; otherwise passthrough. -/
theorem dispatch_priority :
    (∀ file, selectTransform "/_wmr.js" file = PipelineKind.runtimeClient) ∧
    (∀ path file, path ≠ "/_wmr.js" → strEndsWith file ".css.js" = true →
      hasModuleExt file = true ∧ selectTransform path file = PipelineKind.cssModuleProxy) ∧
    (∀ path file, path ≠ "/_wmr.js" → strEndsWith file ".css.js" = false →
      hasModuleExt file = true → selectTransform path file = PipelineKind.module) ∧
    (∀ path file, path ≠ "/_wmr.js" → strEndsWith file ".css.js" = false →
      hasModuleExt file = false → hasStylesheetExt file = true →
      selectTransform path file = PipelineKind.stylesheet) ∧
    (∀ path file, path ≠ "/_wmr.js" → strEndsWith file ".css.js" = false →
      hasModuleExt file = false → hasStylesheetExt file = false →
      selectTransform path file = PipelineKind.passthrough) := by
  refine ⟨fun file => by simp [selectTransform], ?_, ?_, ?_, ?_⟩
  · intro path file h1 h2
    refine ⟨?_, ?_⟩
    · simp [hasModuleExt, strEndsWith_js_of_cssjs file h2]
    · simp [selectTransform, h1, h2]
  · intro path file h1 h2 h3
    simp [selectTransform, h1, h2, h3]
  · intro path file h1 h2 h3 h4
    simp [selectTransform, h1, h2, h3, h4]
  · intro path file h1 h2 h3 h4
    simp [selectTransform, h1, h2, h3, h4]

theorem dispatch_priority_witness :
    hasModuleExt "cwd/s.css.js" = true ∧
    selectTransform "/s.css.js" "cwd/s.css.js" = PipelineKind.cssModuleProxy :=
  dispatch_priority.2.1 "/s.css.js" "cwd/s.css.js" (by decide) (by decide)

/-! ## Claim C8 -/

theorem writeCacheFile_cache_eq (rootDir fileName data : String) (st : SysState) (fsOk : Bool) :
    ((writeCacheFileSteps rootDir fileName data).foldl (applyCacheStep fsOk) st).cache =
      Cache.set st.cache fileName data := by
  by_cases hd : dirnameOf (pathResolve rootDir fileName) = rootDir
  · simp only [writeCacheFileSteps, hd, ne_eq, not_true_eq_false, if_false, List.nil_append,
      List.foldl_cons, List.foldl_nil, applyCacheStep]
    cases fsOk <;> simp [applyCacheStep]
  · simp only [writeCacheFileSteps, hd, ne_eq, not_false_eq_true, if_true, List.cons_append,
      List.nil_append, List.foldl_cons, List.foldl_nil, applyCacheStep]
    cases fsOk <;> simp [applyCacheStep]

/-- C8: `writeCacheFile(out, id, data)` updates the in-memory store
before any disk I/O begins — the synchronous `WRITE_CACHE.set` is the
first of its steps, after which `get(id)` immediately returns `data` —
and however the background disk mirror fares (`fsOk` true or false), the
final in-memory cache is exactly the original cache with the one entry
set: a failed mirror write leaves the in-memory entry (and hence the
value already returned to the requester) unchanged. -/
theorem writeCacheFile_memory_first (rootDir fileName data : String) (st : SysState)
    (fsOk : Bool) :
    (writeCacheFileSteps rootDir fileName data).head? =
      some (CacheStep.memSet fileName data) ∧
    Cache.get (applyCacheStep fsOk st (CacheStep.memSet fileName data)).cache fileName =
      some data ∧
    ((writeCacheFileSteps rootDir fileName data).foldl (applyCacheStep fsOk) st).cache =
      Cache.set st.cache fileName data ∧
    Cache.get ((writeCacheFileSteps rootDir fileName data).foldl (applyCacheStep false) st).cache
      fileName = some data := by
  refine ⟨rfl, ?_, writeCacheFile_cache_eq rootDir fileName data st fsOk, ?_⟩
  · simp [applyCacheStep, Cache.get_set_self]
  · rw [writeCacheFile_cache_eq]
    exact Cache.get_set_self st.cache fileName data

end Wmr
